import Mathlib

/-!
Verification of the token-lifecycle and capability-resolution core of an
authentication gateway (Express/Firestore service: userMiddleware.js,
userRoutes.js, and the user database module).

Shallow embedding: pure computations of the JavaScript source become Lean
functions; the Firestore collections touched by the exchange store and the
phone-number update become association lists with explicit state passing;
external collaborators (jwt.verify, the sha256 digest of cryptLib) are
passed in as function parameters.  JavaScript timestamps (Date.getTime)
are modelled as Int, device counts (array lengths) as Nat.
-/

/-- Error codes of the validators module (the ERROR_CODES constants; the
string values of the constants live outside the embedded sources, so the
codes are modelled as an inductive type; `Unknown` stands for any code the
error handler's switch does not recognize). -/
inductive ErrorCode where
  | MissingHeader
  | MissingBearer
  | InvalidFirebaseToken
  | DeviceExists
  | PhoneNumberNotVerified
  | MissingParameter
  | InvalidAccessToken
  | Unknown (code : String)
deriving DecidableEq

/-- Result record built inline by VerifyUpdatePhoneNumber
(userMiddleware.js lines 76-88): the object
`{ SMS, QR, SSID, Geolocation }` (no Smart field at this call site). -/
structure MiddlewareMethods where
  SMS : Bool
  QR : Bool
  SSID : Bool
  Geolocation : Bool
deriving DecidableEq

/-- Capability resolution of VerifyUpdatePhoneNumber (userMiddleware.js
lines 76-88).  `totalDeviceCount` and `mobileDeviceCount` are the lengths
of getAllDevices and getAllMobileDevices; the source computes
`desktopDeviceCount = totalDeviceCount - mobileDeviceCount`, then
`SMS = phoneVerified`, `QR = mobileDeviceCount > 0`,
`SSID = desktopDeviceCount > 0 && mobileDeviceCount > 0`,
`Geolocation = mobileDeviceCount > 0`. -/
def middlewareAvailableMethods (phoneVerified : Bool)
    (totalDeviceCount mobileDeviceCount : Nat) : MiddlewareMethods :=
  let desktopDeviceCount := totalDeviceCount - mobileDeviceCount
  { SMS := phoneVerified
    QR := decide (mobileDeviceCount > 0)
    SSID := decide (desktopDeviceCount > 0) && decide (mobileDeviceCount > 0)
    Geolocation := decide (mobileDeviceCount > 0) }

/-- Result record built inline by the /basicInfo route handler
(userRoutes.js lines 41-55): the object `{ SMS, QR, SSID, Geolocation }`
plus a Smart field that is added (set to true) only when SSID is true;
`Smart = none` models the absent field. -/
structure BasicInfoMethods where
  SMS : Bool
  QR : Bool
  SSID : Bool
  Geolocation : Bool
  Smart : Option Bool
deriving DecidableEq

/-- Capability resolution of the /basicInfo route (userRoutes.js lines
41-55): `SMS = phoneVerified`, `QR = mobileDeviceCount > 0`,
`SSID = desktopDeviceCount > 0 && mobileDeviceCount > 0`,
`Geolocation = desktopDeviceCount > 0 && mobileDeviceCount > 0`, and
`if (SSID) Smart = true`. -/
def basicInfoAvailableMethods (phoneVerified : Bool)
    (totalDeviceCount mobileDeviceCount : Nat) : BasicInfoMethods :=
  let desktopDeviceCount := totalDeviceCount - mobileDeviceCount
  let ssid := decide (desktopDeviceCount > 0) && decide (mobileDeviceCount > 0)
  { SMS := phoneVerified
    QR := decide (mobileDeviceCount > 0)
    SSID := ssid
    Geolocation := decide (desktopDeviceCount > 0) && decide (mobileDeviceCount > 0)
    Smart := if ssid then some true else none }

/-- Result record of the /getAvailableAuthMethods route (userRoutes.js
lines 280-301): the object starts as `{ SMS: true, QR: false, SSID: false }`
and has no Geolocation or Smart field. -/
structure GetAuthMethods where
  SMS : Bool
  QR : Bool
  SSID : Bool
deriving DecidableEq

/-- Capability resolution of /getAvailableAuthMethods (userRoutes.js lines
280-301): SMS is hardcoded true; if at least one desktop and one mobile
device, QR and SSID become true; else if at least one mobile device, QR
becomes true. -/
def getAvailableAuthMethods (totalDeviceCount mobileDeviceCount : Nat) :
    GetAuthMethods :=
  let desktopDeviceCount := totalDeviceCount - mobileDeviceCount
  let start : GetAuthMethods := { SMS := true, QR := false, SSID := false }
  if desktopDeviceCount > 0 ∧ mobileDeviceCount > 0 then
    { start with QR := true, SSID := true }
  else if mobileDeviceCount > 0 then
    { start with QR := true }
  else
    start

/-- Payload of a decoded access-token JWT: the fields VerifyAccessToken
reads (`userId` and the `isAccessToken` marker; an absent or non-true
marker is the false case of the JavaScript truthiness test). -/
structure AccessTokenPayload where
  userId : String
  isAccessToken : Bool
deriving DecidableEq

/-- Hard access-token check VerifyAccessToken (userMiddleware.js lines
49-66).  `jwtVerify` models jwt.verify with the process signing key: it
returns none when the call throws (missing cookie, invalid signature, or
expired token) and the decoded payload otherwise.  Every failure path of
the source (the catch block and the userId or marker mismatch, whose
throw is itself caught and rethrown by the catch block) produces the
error code INVALID_ACCESS_TOKEN; success returns true. -/
def VerifyAccessToken (jwtVerify : String → Option AccessTokenPayload)
    (accessTokenCookie userId : String) : Except ErrorCode Bool :=
  match jwtVerify accessTokenCookie with
  | none => Except.error ErrorCode.InvalidAccessToken
  | some accessData =>
    if (accessData.userId != userId) || !accessData.isAccessToken then
      Except.error ErrorCode.InvalidAccessToken
    else
      Except.ok true

/-- JavaScript truthiness of the optional string field req.body.phoneNumber
(absent and empty string are falsy). -/
def jsTruthyStr : Option String → Bool
  | none => false
  | some s => s != ""

/-- Conditional second-factor check VerifyUpdatePhoneNumber
(userMiddleware.js lines 71-97): computes the available methods for the
subject; when at least one method is available and req.body.phoneNumber is
truthy it delegates to VerifyAccessToken, otherwise it returns true. -/
def VerifyUpdatePhoneNumber (jwtVerify : String → Option AccessTokenPayload)
    (phoneVerified : Bool) (totalDeviceCount mobileDeviceCount : Nat)
    (bodyPhoneNumber : Option String) (accessTokenCookie userId : String) :
    Except ErrorCode Bool :=
  let availableMethods :=
    middlewareAvailableMethods phoneVerified totalDeviceCount mobileDeviceCount
  if (availableMethods.SMS || availableMethods.QR || availableMethods.SSID ||
      availableMethods.Geolocation) && jsTruthyStr bodyPhoneNumber then
    VerifyAccessToken jwtVerify accessTokenCookie userId
  else
    Except.ok true

/-- JSON error response sent by AuthValidate: HTTP status, the error code
of the body, and the optional `success: false` field some branches add. -/
structure ErrorResponse where
  status : Nat
  error : ErrorCode
  success : Option Bool
deriving DecidableEq

/-- Switch of the AuthValidate error handler (userMiddleware.js lines
120-162), mapping the first collected error code to the response.  The
DeviceExists branch of the source calls `res.staus(401)` - a typo for
`res.status` - so that branch throws a TypeError and produces no HTTP
response at all; it is modelled as none. -/
def authValidateRespond : ErrorCode → Option ErrorResponse
  | ErrorCode.MissingHeader =>
    some { status := 403, error := ErrorCode.MissingHeader, success := none }
  | ErrorCode.MissingBearer =>
    some { status := 403, error := ErrorCode.MissingBearer, success := none }
  | ErrorCode.InvalidFirebaseToken =>
    some { status := 400, error := ErrorCode.InvalidFirebaseToken, success := none }
  | ErrorCode.DeviceExists => none
  | ErrorCode.PhoneNumberNotVerified =>
    some { status := 409, error := ErrorCode.PhoneNumberNotVerified, success := none }
  | ErrorCode.MissingParameter =>
    some { status := 412, error := ErrorCode.MissingParameter, success := some false }
  | ErrorCode.InvalidAccessToken =>
    some { status := 417, error := ErrorCode.InvalidAccessToken, success := some false }
  | ErrorCode.Unknown code =>
    some { status := 400, error := ErrorCode.Unknown code, success := none }

/-- Outcome of the AuthValidate middleware for one request: calls next()
when no error was collected, sends the switch's response for the first
collected error, or crashes (the res.staus typo) sending nothing. -/
inductive GatewayOutcome where
  | next
  | respond (r : ErrorResponse)
  | crashed
deriving DecidableEq

/-- AuthValidate (userMiddleware.js lines 108-163): reads the collected
validation errors, proceeds when there are none, and otherwise answers
according to the first error message only. -/
def AuthValidate : List ErrorCode → GatewayOutcome
  | [] => GatewayOutcome.next
  | e :: _ =>
    match authValidateRespond e with
    | some r => GatewayOutcome.respond r
    | none => GatewayOutcome.crashed

/-- One express-validator chain of a validator array, as the request
pipeline sees it: a state transformer over the request-and-world state
that may record one error code.  A chain always hands control to the next
middleware (a failing chain records its error rather than aborting), so
every chain of the array executes; .bail() only skips the remaining
validators of the same chain. -/
def ChainStep (σ : Type) : Type := σ → Option ErrorCode × σ

/-- Sequential execution of a validator array (the middleware lists built
by CheckPhoneNumberChangeValidator and its siblings, userMiddleware.js
lines 199-202, as express runs them before AuthValidate): every chain
runs, in order, threading the state; the recorded error codes accumulate
in order. -/
def runValidations {σ : Type} : List (ChainStep σ) → σ → List ErrorCode × σ
  | [], s => ([], s)
  | chain :: rest, s =>
    let step := chain s
    let tail := runValidations rest step.2
    (step.1.toList ++ tail.1, tail.2)

/-- Exchange-store entry of the UsersHash collection (part_000,
createUserHash): the document `{ userId, timestamp, secret }`. -/
structure HashEntry where
  userId : String
  timestamp : Int
  secret : String
deriving DecidableEq

/-- Firestore collection keyed by document id, as an association list. -/
abbrev DocStore (α : Type) : Type := List (String × α)

/-- Document lookup (DocumentReference.get followed by the exists test):
first binding of the document id. -/
def docLookup {α : Type} : DocStore α → String → Option α
  | [], _ => none
  | (k, v) :: rest, docId => if k = docId then some v else docLookup rest docId

/-- Document deletion (DocumentReference.delete): removes every binding of
the document id. -/
def docDelete {α : Type} : DocStore α → String → DocStore α
  | [], _ => []
  | (k, v) :: rest, docId =>
    if k = docId then docDelete rest docId else (k, v) :: docDelete rest docId

/-- Document write (DocumentReference.set): replaces the document. -/
def docSet {α : Type} (st : DocStore α) (docId : String) (v : α) : DocStore α :=
  (docId, v) :: docDelete st docId

/-- The UsersHash collection. -/
abbrev UsersHashStore : Type := DocStore HashEntry

/-- Failures of getUserIdFromHash: createError(401) when the document does
not exist, createError(410, session timeout) when it is older than 60000
milliseconds. -/
inductive ExchangeError where
  | NotFound
  | Expired
deriving DecidableEq

/-- createUserHash (part_000 lines 55-62): hashes userId ++ "||" ++ secret
with the sha256 digest (`getHashSha256`, the external cryptLib digest
passed as a parameter), writes `{ userId, timestamp := currentTime,
secret }` under that document id, and hands the id back. -/
def createUserHash (getHashSha256 : String → String) (userId secret : String)
    (currentTime : Int) (st : UsersHashStore) : String × UsersHashStore :=
  let hashedUserId := getHashSha256 (userId ++ "||" ++ secret)
  (hashedUserId,
    docSet st hashedUserId
      { userId := userId, timestamp := currentTime, secret := secret })

/-- getUserIdFromHash (part_000 lines 152-170): looks the document up;
fails NotFound when it does not exist; when it is older than 60000
milliseconds deletes it and fails Expired; otherwise deletes it and
returns its userId.  The function yields the result together with the
collection it leaves behind. -/
def getUserIdFromHash (hashedUserId : String) (currentTime : Int)
    (st : UsersHashStore) : Except ExchangeError String × UsersHashStore :=
  match docLookup st hashedUserId with
  | none => (Except.error ExchangeError.NotFound, st)
  | some user =>
    if currentTime - user.timestamp > 60000 then
      (Except.error ExchangeError.Expired, docDelete st hashedUserId)
    else
      (Except.ok user.userId, docDelete st hashedUserId)

/-- User document of the Users collection, with the fields the embedded
operations touch. -/
structure UserDoc where
  username : String
  name : String
  phoneNumber : String
  phoneVerified : Bool
  secret : String
deriving DecidableEq

/-- The Users collection. -/
abbrev UsersStore : Type := DocStore UserDoc

/-- updatePhoneNumber (part_000 lines 190-201): DocumentReference.update
with `{ phoneNumber, phoneVerified: false }`; Firestore update rejects
when the document does not exist (modelled none), otherwise it merges the
two fields into the existing document. -/
def updatePhoneNumber (userId phoneNumber : String) (db : UsersStore) :
    Option UsersStore :=
  match docLookup db userId with
  | none => none
  | some user =>
    some (docSet db userId
      { user with phoneNumber := phoneNumber, phoneVerified := false })

/-- Identity digest: a stand-in for the external sha256 parameter when a
concrete instance is evaluated. -/
def idHash : String → String := fun s => s

/-- Claim C1 as stated: at each of the three capability call sites, for
every phoneVerified flag and every pair of device counts, SMS equals
phoneVerified, QR equals mobile > 0, SSID equals mobile > 0 and
desktop > 0, and Smart is present exactly when SSID is true. -/
def claimC1 : Prop :=
  ∀ (phoneVerified : Bool) (mobileCount desktopCount : Nat),
    (middlewareAvailableMethods phoneVerified (mobileCount + desktopCount)
        mobileCount).SMS = phoneVerified ∧
    (middlewareAvailableMethods phoneVerified (mobileCount + desktopCount)
        mobileCount).QR = decide (mobileCount > 0) ∧
    (middlewareAvailableMethods phoneVerified (mobileCount + desktopCount)
        mobileCount).SSID =
      (decide (mobileCount > 0) && decide (desktopCount > 0)) ∧
    (basicInfoAvailableMethods phoneVerified (mobileCount + desktopCount)
        mobileCount).SMS = phoneVerified ∧
    (basicInfoAvailableMethods phoneVerified (mobileCount + desktopCount)
        mobileCount).QR = decide (mobileCount > 0) ∧
    (basicInfoAvailableMethods phoneVerified (mobileCount + desktopCount)
        mobileCount).SSID =
      (decide (mobileCount > 0) && decide (desktopCount > 0)) ∧
    (basicInfoAvailableMethods phoneVerified (mobileCount + desktopCount)
        mobileCount).Smart.isSome =
      (basicInfoAvailableMethods phoneVerified (mobileCount + desktopCount)
        mobileCount).SSID ∧
    (getAvailableAuthMethods (mobileCount + desktopCount) mobileCount).SMS =
      phoneVerified ∧
    (getAvailableAuthMethods (mobileCount + desktopCount) mobileCount).QR =
      decide (mobileCount > 0) ∧
    (getAvailableAuthMethods (mobileCount + desktopCount) mobileCount).SSID =
      (decide (mobileCount > 0) && decide (desktopCount > 0))

/-- Claim C2 as stated: the Geolocation capability at the two cited call
sites equals mobile > 0, and the scenario of 2 mobile devices, 0 desktop
devices and a verified phone resolves to SMS true, QR true, SSID false,
Geolocation true and no Smart method. -/
def claimC2 : Prop :=
  (∀ (phoneVerified : Bool) (mobileCount desktopCount : Nat),
    (middlewareAvailableMethods phoneVerified (mobileCount + desktopCount)
        mobileCount).Geolocation = decide (mobileCount > 0) ∧
    (basicInfoAvailableMethods phoneVerified (mobileCount + desktopCount)
        mobileCount).Geolocation = decide (mobileCount > 0)) ∧
  middlewareAvailableMethods true 2 2 =
    { SMS := true, QR := true, SSID := false, Geolocation := true } ∧
  basicInfoAvailableMethods true 2 2 =
    { SMS := true, QR := true, SSID := false, Geolocation := true,
      Smart := none }

/-- Claim C7 as stated: whenever the first check of a three-check
validator array fails, the gateway reports exactly that check's code as
the single reported failure, and the later checks are never executed, so
the state carries no trace of them (it is exactly the state the failing
first check left behind). -/
def claimC7 : Prop :=
  ∀ (σ : Type) (A B C : ChainStep σ) (s s' : σ) (c : ErrorCode),
    A s = (some c, s') →
    AuthValidate (runValidations [A, B, C] s).1 = AuthValidate [c] ∧
    (runValidations [A, B, C] s).2 = s'

/-- First check of the concrete chain refuting claim C7: fails with
MissingHeader and touches nothing. -/
def cexCheckA : ChainStep (Nat × Nat) :=
  fun s => (some ErrorCode.MissingHeader, s)

/-- Second check of the concrete chain refuting claim C7: bumps the first
side-effect counter and fails with InvalidAccessToken. -/
def cexCheckB : ChainStep (Nat × Nat) :=
  fun s => (some ErrorCode.InvalidAccessToken, (s.1 + 1, s.2))

/-- Third check of the concrete chain refuting claim C7: bumps the second
side-effect counter and passes. -/
def cexCheckC : ChainStep (Nat × Nat) :=
  fun s => (none, (s.1, s.2 + 1))

/-- A deleted document id is no longer found. -/
theorem docLookup_docDelete {α : Type} (st : DocStore α) (docId : String) :
    docLookup (docDelete st docId) docId = none := by
  induction st with
  | nil => rfl
  | cons kv rest ih =>
    by_cases h : kv.1 = docId
    · simpa [docDelete, h] using ih
    · simpa [docDelete, docLookup, h] using ih

/-- A freshly written document is found as written. -/
theorem docLookup_docSet_self {α : Type} (st : DocStore α) (docId : String)
    (v : α) : docLookup (docSet st docId v) docId = some v := by
  simp [docSet, docLookup]

/-- Resolving a document id that is not in the store fails NotFound and
leaves the store unchanged. -/
theorem getUserIdFromHash_of_none (hashedUserId : String) (currentTime : Int)
    (st : UsersHashStore) (h : docLookup st hashedUserId = none) :
    getUserIdFromHash hashedUserId currentTime st =
      (Except.error ExchangeError.NotFound, st) := by
  simp [getUserIdFromHash, h]

/-- Claim C3: for every subject and secret, createUserHash stores an entry
keyed by the digest of subject || "||" || secret carrying the creation
timestamp, and a getUserIdFromHash of that hash performed within the
60-second TTL returns exactly the subject that was put. -/
theorem c3_put_then_resolve (getHashSha256 : String → String)
    (userId secret : String) (t0 t1 : Int) (st : UsersHashStore)
    (h : t1 - t0 ≤ 60000) :
    (createUserHash getHashSha256 userId secret t0 st).1 =
      getHashSha256 (userId ++ "||" ++ secret) ∧
    docLookup (createUserHash getHashSha256 userId secret t0 st).2
        (createUserHash getHashSha256 userId secret t0 st).1 =
      some { userId := userId, timestamp := t0, secret := secret } ∧
    (getUserIdFromHash (createUserHash getHashSha256 userId secret t0 st).1 t1
        (createUserHash getHashSha256 userId secret t0 st).2).1 =
      Except.ok userId := by
  refine ⟨rfl, ?_, ?_⟩
  · simpa [createUserHash] using
      docLookup_docSet_self st (getHashSha256 (userId ++ "||" ++ secret))
        { userId := userId, timestamp := t0, secret := secret }
  · have hlk : docLookup (createUserHash getHashSha256 userId secret t0 st).2
        (createUserHash getHashSha256 userId secret t0 st).1 =
        some { userId := userId, timestamp := t0, secret := secret } := by
      simpa [createUserHash] using
        docLookup_docSet_self st (getHashSha256 (userId ++ "||" ++ secret))
          { userId := userId, timestamp := t0, secret := secret }
    have hfresh : ¬ t1 - t0 > 60000 := by omega
    simp [getUserIdFromHash, hlk, hfresh]

/-- Witness for C3 at a concrete input: subject u1, secret secretA, put at
time 0 into the empty store, resolved at time 1000. -/
theorem c3_put_then_resolve_witness :
    (createUserHash idHash "u1" "secretA" 0 []).1 =
      idHash ("u1" ++ "||" ++ "secretA") ∧
    docLookup (createUserHash idHash "u1" "secretA" 0 []).2
        (createUserHash idHash "u1" "secretA" 0 []).1 =
      some { userId := "u1", timestamp := 0, secret := "secretA" } ∧
    (getUserIdFromHash (createUserHash idHash "u1" "secretA" 0 []).1 1000
        (createUserHash idHash "u1" "secretA" 0 []).2).1 =
      Except.ok "u1" :=
  c3_put_then_resolve idHash "u1" "secretA" 0 1000 [] (by decide)

/-- Claim C4: no exchange-store entry survives its first lookup - after
any getUserIdFromHash of a hash, the store holds no entry for that hash,
and a second getUserIdFromHash of the same hash fails NotFound regardless
of the times involved. -/
theorem c4_single_use (hashedUserId : String) (t t' : Int)
    (st : UsersHashStore) :
    docLookup (getUserIdFromHash hashedUserId t st).2 hashedUserId = none ∧
    (getUserIdFromHash hashedUserId t'
        (getUserIdFromHash hashedUserId t st).2).1 =
      Except.error ExchangeError.NotFound := by
  have hnone : docLookup (getUserIdFromHash hashedUserId t st).2 hashedUserId
      = none := by
    cases hlk : docLookup st hashedUserId with
    | none => simp [getUserIdFromHash, hlk]
    | some user =>
      by_cases hexp : t - user.timestamp > 60000
      · simp [getUserIdFromHash, hlk, hexp, docLookup_docDelete]
      · simp [getUserIdFromHash, hlk, hexp, docLookup_docDelete]
  refine ⟨hnone, ?_⟩
  rw [getUserIdFromHash_of_none _ t' _ hnone]

/-- Claim C5: resolving an entry older than the 60-second TTL deletes it
and fails Expired (neither a success nor NotFound), and a subsequent
resolution of the same hash fails NotFound rather than Expired. -/
theorem c5_expired_then_gone (hashedUserId : String) (t t' : Int)
    (st : UsersHashStore) (user : HashEntry)
    (hfound : docLookup st hashedUserId = some user)
    (hexp : t - user.timestamp > 60000) :
    (getUserIdFromHash hashedUserId t st).1 =
      Except.error ExchangeError.Expired ∧
    docLookup (getUserIdFromHash hashedUserId t st).2 hashedUserId = none ∧
    (getUserIdFromHash hashedUserId t'
        (getUserIdFromHash hashedUserId t st).2).1 =
      Except.error ExchangeError.NotFound := by
  have hres : getUserIdFromHash hashedUserId t st =
      (Except.error ExchangeError.Expired, docDelete st hashedUserId) := by
    simp [getUserIdFromHash, hfound, hexp]
  refine ⟨by rw [hres], ?_, ?_⟩
  · rw [hres]
    exact docLookup_docDelete st hashedUserId
  · rw [getUserIdFromHash_of_none _ t' _ (by rw [hres]; exact docLookup_docDelete st hashedUserId)]

/-- Witness for C5 at a concrete input: an entry created at time 0 and
resolved at time 70000, then again at time 80000. -/
theorem c5_expired_then_gone_witness :
    (getUserIdFromHash "h1" 70000
        [("h1", { userId := "u1", timestamp := 0, secret := "sA" })]).1 =
      Except.error ExchangeError.Expired ∧
    docLookup (getUserIdFromHash "h1" 70000
        [("h1", { userId := "u1", timestamp := 0, secret := "sA" })]).2 "h1" =
      none ∧
    (getUserIdFromHash "h1" 80000
        (getUserIdFromHash "h1" 70000
          [("h1", { userId := "u1", timestamp := 0, secret := "sA" })]).2).1 =
      Except.error ExchangeError.NotFound :=
  c5_expired_then_gone "h1" 70000 80000
    [("h1", { userId := "u1", timestamp := 0, secret := "sA" })]
    { userId := "u1", timestamp := 0, secret := "sA" } (by decide) (by decide)

/-- Claim C6: the hard access-token check fails with InvalidAccessToken
exactly when jwt.verify throws (invalid signature or expired token,
modelled as jwtVerify returning none), or the encoded subject differs from
the expected one, or the isAccessToken marker is absent or false; in every
other case it succeeds. -/
theorem c6_verify_access_token (jwtVerify : String → Option AccessTokenPayload)
    (accessTokenCookie userId : String) :
    (VerifyAccessToken jwtVerify accessTokenCookie userId =
        Except.error ErrorCode.InvalidAccessToken ↔
      jwtVerify accessTokenCookie = none ∨
        ∃ accessData, jwtVerify accessTokenCookie = some accessData ∧
          (accessData.userId ≠ userId ∨ accessData.isAccessToken = false)) ∧
    (¬ VerifyAccessToken jwtVerify accessTokenCookie userId =
        Except.error ErrorCode.InvalidAccessToken →
      VerifyAccessToken jwtVerify accessTokenCookie userId = Except.ok true) := by
  cases hv : jwtVerify accessTokenCookie with
  | none => simp [VerifyAccessToken, hv]
  | some accessData =>
    by_cases hbad : (accessData.userId != userId) || !accessData.isAccessToken
    · have herr : VerifyAccessToken jwtVerify accessTokenCookie userId =
          Except.error ErrorCode.InvalidAccessToken := by
        simp [VerifyAccessToken, hv, hbad]
      refine ⟨⟨fun _ => Or.inr ⟨accessData, rfl, ?_⟩, fun _ => herr⟩,
        fun hns => absurd herr hns⟩
      rcases Bool.or_eq_true_iff.mp hbad with hne | hmk
      · exact Or.inl (bne_iff_ne.mp hne)
      · exact Or.inr (by simpa using hmk)
    · have hok : VerifyAccessToken jwtVerify accessTokenCookie userId =
          Except.ok true := by
        simp only [VerifyAccessToken, hv]
        rw [if_neg hbad]
      refine ⟨⟨fun hcontra => absurd (hok.symm.trans hcontra) (by simp), ?_⟩,
        fun _ => hok⟩
      rintro (hnone | ⟨p, hp, hbadp⟩)
      · exact absurd hnone (by simp)
      · have hpe : accessData = p := Option.some_inj.mp hp
        subst hpe
        rcases hbadp with hne | hmk
        · exact absurd (by simp [bne_iff_ne, hne]) hbad
        · exact absurd (by simp [hmk]) hbad

/-- Claim C7 as stated is false: on the concrete three-check array whose
first check fails with MissingHeader, the gateway does report only
MissingHeader, but the later checks still execute - their side-effect
counters end at (1, 1), not at the (0, 0) the failing first check left
behind. -/
theorem c7_counterexample : ¬ claimC7 := by
  intro h
  have hrun := (h (Nat × Nat) cexCheckA cexCheckB cexCheckC (0, 0) (0, 0)
    ErrorCode.MissingHeader rfl).2
  have heval : (runValidations [cexCheckA, cexCheckB, cexCheckC]
      ((0, 0) : Nat × Nat)).2 = (1, 1) := rfl
  rw [heval] at hrun
  exact absurd hrun (by decide)

/-- Claim C7 amended: when the first check of a validator array fails, the
gateway's answer is exactly the answer for that check's code alone (the
first collected error is the only one reported), but the later chains of
the array still execute - the final state is the state of running them
from the failing check's state, not that state itself. -/
theorem c7_first_failure_reported (σ : Type) (A : ChainStep σ)
    (rest : List (ChainStep σ)) (s s' : σ) (c : ErrorCode)
    (hA : A s = (some c, s')) :
    AuthValidate (runValidations (A :: rest) s).1 = AuthValidate [c] ∧
    (runValidations (A :: rest) s).1.head? = some c ∧
    (runValidations (A :: rest) s).2 = (runValidations rest s').2 := by
  have hstep : runValidations (A :: rest) s =
      (c :: (runValidations rest s').1, (runValidations rest s').2) := by
    simp [runValidations, hA]
  rw [hstep]
  exact ⟨rfl, rfl, rfl⟩

/-- Witness for the amended C7 at the concrete counter chain: the first
check fails with MissingHeader, the report is the MissingHeader response,
and the final state is the one the later chains produce. -/
theorem c7_first_failure_reported_witness :
    AuthValidate (runValidations [cexCheckA, cexCheckB, cexCheckC]
        ((0, 0) : Nat × Nat)).1 = AuthValidate [ErrorCode.MissingHeader] ∧
    (runValidations [cexCheckA, cexCheckB, cexCheckC]
        ((0, 0) : Nat × Nat)).1.head? = some ErrorCode.MissingHeader ∧
    (runValidations [cexCheckA, cexCheckB, cexCheckC]
        ((0, 0) : Nat × Nat)).2 =
      (runValidations [cexCheckB, cexCheckC] ((0, 0) : Nat × Nat)).2 :=
  c7_first_failure_reported (Nat × Nat) cexCheckA [cexCheckB, cexCheckC]
    (0, 0) (0, 0) ErrorCode.MissingHeader rfl

/-- Claim C8: the conditional second-factor check of the phone-number
change endpoint passes unconditionally when the subject's resolved
capability set has no available method or the request body carries no
phone number; otherwise its result is exactly the result of the hard
access-token check on the same request. -/
theorem c8_conditional_second_factor
    (jwtVerify : String → Option AccessTokenPayload) (phoneVerified : Bool)
    (totalDeviceCount mobileDeviceCount : Nat) (bodyPhoneNumber : Option String)
    (accessTokenCookie userId : String) :
    (((middlewareAvailableMethods phoneVerified totalDeviceCount
          mobileDeviceCount).SMS ||
        (middlewareAvailableMethods phoneVerified totalDeviceCount
          mobileDeviceCount).QR ||
        (middlewareAvailableMethods phoneVerified totalDeviceCount
          mobileDeviceCount).SSID ||
        (middlewareAvailableMethods phoneVerified totalDeviceCount
          mobileDeviceCount).Geolocation) = false ∨
        jsTruthyStr bodyPhoneNumber = false →
      VerifyUpdatePhoneNumber jwtVerify phoneVerified totalDeviceCount
        mobileDeviceCount bodyPhoneNumber accessTokenCookie userId =
          Except.ok true) ∧
    (((middlewareAvailableMethods phoneVerified totalDeviceCount
          mobileDeviceCount).SMS ||
        (middlewareAvailableMethods phoneVerified totalDeviceCount
          mobileDeviceCount).QR ||
        (middlewareAvailableMethods phoneVerified totalDeviceCount
          mobileDeviceCount).SSID ||
        (middlewareAvailableMethods phoneVerified totalDeviceCount
          mobileDeviceCount).Geolocation) = true ∧
        jsTruthyStr bodyPhoneNumber = true →
      VerifyUpdatePhoneNumber jwtVerify phoneVerified totalDeviceCount
        mobileDeviceCount bodyPhoneNumber accessTokenCookie userId =
          VerifyAccessToken jwtVerify accessTokenCookie userId) := by
  constructor
  · intro hpass
    rcases hpass with hnone | hnopn
    · simp [VerifyUpdatePhoneNumber, hnone]
    · simp [VerifyUpdatePhoneNumber, hnopn]
  · intro hgate
    simp [VerifyUpdatePhoneNumber, hgate.1, hgate.2]

/-- Claim C1 as stated is false: at the /getAvailableAuthMethods call site
SMS is hardcoded true, so for an unverified phone (phoneVerified false,
here with zero devices) SMS does not equal phoneVerified. -/
theorem c1_counterexample : ¬ claimC1 :=
  fun h => absurd (h false 0 0) (by decide)

/-- Claim C1 amended: at the VerifyUpdatePhoneNumber and /basicInfo call
sites SMS equals phoneVerified, QR equals mobile > 0 and SSID equals
mobile > 0 and desktop > 0; at /basicInfo the Smart method is present
exactly when SSID is true (the other two sites build no Smart field); at
the /getAvailableAuthMethods call site QR and SSID follow the same
formulas but SMS is hardcoded true regardless of phoneVerified. -/
theorem c1_capability_sites (phoneVerified : Bool)
    (mobileCount desktopCount : Nat) :
    (middlewareAvailableMethods phoneVerified (mobileCount + desktopCount)
        mobileCount).SMS = phoneVerified ∧
    (middlewareAvailableMethods phoneVerified (mobileCount + desktopCount)
        mobileCount).QR = decide (mobileCount > 0) ∧
    (middlewareAvailableMethods phoneVerified (mobileCount + desktopCount)
        mobileCount).SSID =
      (decide (mobileCount > 0) && decide (desktopCount > 0)) ∧
    (basicInfoAvailableMethods phoneVerified (mobileCount + desktopCount)
        mobileCount).SMS = phoneVerified ∧
    (basicInfoAvailableMethods phoneVerified (mobileCount + desktopCount)
        mobileCount).QR = decide (mobileCount > 0) ∧
    (basicInfoAvailableMethods phoneVerified (mobileCount + desktopCount)
        mobileCount).SSID =
      (decide (mobileCount > 0) && decide (desktopCount > 0)) ∧
    (basicInfoAvailableMethods phoneVerified (mobileCount + desktopCount)
        mobileCount).Smart.isSome =
      (basicInfoAvailableMethods phoneVerified (mobileCount + desktopCount)
        mobileCount).SSID ∧
    (getAvailableAuthMethods (mobileCount + desktopCount) mobileCount).SMS =
      true ∧
    (getAvailableAuthMethods (mobileCount + desktopCount) mobileCount).QR =
      decide (mobileCount > 0) ∧
    (getAvailableAuthMethods (mobileCount + desktopCount) mobileCount).SSID =
      (decide (mobileCount > 0) && decide (desktopCount > 0)) := by
  have hsub : mobileCount + desktopCount - mobileCount = desktopCount :=
    Nat.add_sub_cancel_left mobileCount desktopCount
  by_cases hm : mobileCount > 0 <;> by_cases hd : desktopCount > 0 <;>
    simp [middlewareAvailableMethods, basicInfoAvailableMethods,
      getAvailableAuthMethods, hsub, hm, hd]

/-- Claim C2 as stated is false: at the /basicInfo call site Geolocation
is computed as desktop > 0 and mobile > 0, so for 2 mobile and 0 desktop
devices it is false, not mobile > 0. -/
theorem c2_counterexample : ¬ claimC2 :=
  fun h => absurd (h.1 true 2 0) (by decide)

/-- Claim C2 amended: the VerifyUpdatePhoneNumber resolver computes
Geolocation as mobile > 0, and on 2 mobile devices, 0 desktop devices and
a verified phone it resolves SMS true, QR true, SSID false, Geolocation
true (no Smart field exists at that site); the /basicInfo resolver instead
computes Geolocation as desktop > 0 and mobile > 0, so the same scenario
there resolves Geolocation false, with Smart absent. -/
theorem c2_geolocation_sites (phoneVerified : Bool)
    (mobileCount desktopCount : Nat) :
    (middlewareAvailableMethods phoneVerified (mobileCount + desktopCount)
        mobileCount).Geolocation = decide (mobileCount > 0) ∧
    (basicInfoAvailableMethods phoneVerified (mobileCount + desktopCount)
        mobileCount).Geolocation =
      (decide (mobileCount > 0) && decide (desktopCount > 0)) ∧
    middlewareAvailableMethods true 2 2 =
      { SMS := true, QR := true, SSID := false, Geolocation := true } ∧
    basicInfoAvailableMethods true 2 2 =
      { SMS := true, QR := true, SSID := false, Geolocation := false,
        Smart := none } := by
  have hsub : mobileCount + desktopCount - mobileCount = desktopCount :=
    Nat.add_sub_cancel_left mobileCount desktopCount
  refine ⟨?_, ?_, by decide, by decide⟩
  · simp [middlewareAvailableMethods]
  · by_cases hm : mobileCount > 0 <;> by_cases hd : desktopCount > 0 <;>
      simp [basicInfoAvailableMethods, hsub, hm, hd]

/-- Claim C9: the error handler's switch maps MissingHeader and
MissingBearer to 403, InvalidFirebaseToken (the identity-token code) to
400, PhoneNumberNotVerified to 409, MissingParameter to 412,
InvalidAccessToken to 417 and every unrecognized code to 400, each with a
JSON body carrying the code - but on DeviceExists the branch calls
res.staus, a typo for res.status, so it crashes and sends no 401
response at all. -/
theorem c9_status_mapping :
    authValidateRespond ErrorCode.MissingHeader =
      some { status := 403, error := ErrorCode.MissingHeader, success := none } ∧
    authValidateRespond ErrorCode.MissingBearer =
      some { status := 403, error := ErrorCode.MissingBearer, success := none } ∧
    authValidateRespond ErrorCode.InvalidFirebaseToken =
      some { status := 400, error := ErrorCode.InvalidFirebaseToken,
             success := none } ∧
    authValidateRespond ErrorCode.PhoneNumberNotVerified =
      some { status := 409, error := ErrorCode.PhoneNumberNotVerified,
             success := none } ∧
    authValidateRespond ErrorCode.MissingParameter =
      some { status := 412, error := ErrorCode.MissingParameter,
             success := some false } ∧
    authValidateRespond ErrorCode.InvalidAccessToken =
      some { status := 417, error := ErrorCode.InvalidAccessToken,
             success := some false } ∧
    (∀ code : String, authValidateRespond (ErrorCode.Unknown code) =
      some { status := 400, error := ErrorCode.Unknown code, success := none }) ∧
    authValidateRespond ErrorCode.DeviceExists = none ∧
    AuthValidate [ErrorCode.DeviceExists] = GatewayOutcome.crashed :=
  ⟨rfl, rfl, rfl, rfl, rfl, rfl, fun _ => rfl, rfl, rfl⟩

/-- Claim C10: a successful phone-number update writes the new phone
number and sets phoneVerified to false in the same write, so afterwards
the middleware capability resolver computes SMS = false for the account,
whatever its device counts. -/
theorem c10_update_phone (userId phoneNumber : String) (db db' : UsersStore)
    (h : updatePhoneNumber userId phoneNumber db = some db') :
    ∃ user, docLookup db' userId = some user ∧
      user.phoneNumber = phoneNumber ∧
      user.phoneVerified = false ∧
      ∀ totalDeviceCount mobileDeviceCount : Nat,
        (middlewareAvailableMethods user.phoneVerified totalDeviceCount
          mobileDeviceCount).SMS = false := by
  unfold updatePhoneNumber at h
  cases hlk : docLookup db userId with
  | none => rw [hlk] at h; exact absurd h (by simp)
  | some user =>
    rw [hlk] at h
    have hdb : db' = docSet db userId
        { user with phoneNumber := phoneNumber, phoneVerified := false } := by
      exact (Option.some_inj.mp h).symm
    refine ⟨{ user with phoneNumber := phoneNumber, phoneVerified := false },
      ?_, rfl, rfl, fun _ _ => rfl⟩
    rw [hdb]
    exact docLookup_docSet_self db userId _

/-- Witness for C10 at a concrete input: updating u1's phone number on a
store where u1 has a verified phone. -/
theorem c10_update_phone_witness :
    ∃ user : UserDoc, docLookup
        [("u1", { username := "alice", name := "Alice",
                  phoneNumber := "+15557654321", phoneVerified := false,
                  secret := "sec" })] "u1" = some user ∧
      user.phoneNumber = "+15557654321" ∧
      user.phoneVerified = false ∧
      ∀ totalDeviceCount mobileDeviceCount : Nat,
        (middlewareAvailableMethods user.phoneVerified totalDeviceCount
          mobileDeviceCount).SMS = false :=
  c10_update_phone "u1" "+15557654321"
    [("u1", { username := "alice", name := "Alice",
              phoneNumber := "+15551234567", phoneVerified := true,
              secret := "sec" })]
    [("u1", { username := "alice", name := "Alice",
              phoneNumber := "+15557654321", phoneVerified := false,
              secret := "sec" })] rfl
